import Mathlib

/-!
Shallow embedding of stow.py, a Python port of GNU Stow: the planning and
execution engine that mirrors package trees from a stow directory into a
target directory with relative symlinks.

Modelling conventions:
- Paths are Lean strings; the os.path helpers (join, normpath, isabs, split
  on the separator) are embedded from posixpath semantics.
- Methods of the Stow class become functions in an error-plus-state monad
  M = EStateM Err StowState; the configuration fields of the object that
  planning never mutates (target, stow_path, flags, compiled patterns) live
  in the read-only Config record, filesystem queries go through the abstract
  FS record, and the mutable fields (tasks, task indexes, conflicts,
  counters, current working directory) live in StowState.
- Python exceptions become values of Err.  Names that stow.py calls but
  never defines (error, internal_error, adjust_dotfile, second_source) raise
  NameError in Python when evaluated; they are embedded as Err.nameError.
- Task objects are shared between the task list and the per-path task
  indexes; the indexes therefore store positions into the task list so that
  in-place mutation of a task is visible from both, as in Python.
- debug output is omitted, but argument expressions of debug calls that can
  raise are kept (notably the os.path.join call in find_stowed_path).
- Python recursion depth is modeled by an explicit fuel argument; running
  out of fuel is Err.recursionError, mirroring the Python recursion limit.
-/

namespace StowPy

/-- os.sep on posix. -/
def sep : String := "/"

/-- os.pardir. -/
def pardir : String := ".."

/-- str.startswith, via the character lists (the core String.startsWith is
compiled in a way the kernel does not reduce). -/
def sstartsWith (s pre : String) : Bool :=
  s.toList.take pre.toList.length == pre.toList

/-- str.endswith, via the character lists. -/
def sendsWith (s suf : String) : Bool :=
  s.toList.reverse.take suf.toList.length == suf.toList.reverse

/-- str.split(sep) restricted to a one-character separator, on character
lists. -/
def splitCharsOn (c : Char) : List Char → List (List Char)
  | [] => [[]]
  | a :: rest =>
    let r := splitCharsOn c rest
    if a == c then [] :: r
    else
      match r with
      | h :: t => (a :: h) :: t
      | [] => [[a]]

/-- path.split(os.sep). -/
def splitSep (s : String) : List String :=
  (splitCharsOn '/' s.toList).map (fun l => String.mk l)

/-- posixpath.join for two arguments. -/
def join2 (a b : String) : String :=
  if sstartsWith b sep then b
  else if a == "" || sendsWith a sep then a ++ b
  else a ++ sep ++ b

/-- posixpath.join folded over the remaining arguments. -/
def joinMany (a : String) (rest : List String) : String :=
  rest.foldl join2 a

/-- Leading-slash count distinguished by posixpath.normpath (0, 1 or 2). -/
def initialSlashes (p : String) : Nat :=
  if sstartsWith p "//" && !sstartsWith p "///" then 2
  else if sstartsWith p sep then 1
  else 0

/-- One step of the component scan of posixpath.normpath.  The accumulator is
kept reversed, so its head is the most recent surviving component. -/
def normStep (ini : Nat) (acc : List String) (comp : String) : List String :=
  if comp == "" || comp == "." then acc
  else if comp != pardir || (ini == 0 && acc.isEmpty) || acc.head? == some pardir then
    comp :: acc
  else acc.tail

/-- posixpath.normpath. -/
def normpath (p : String) : String :=
  if p == "" then "." else
  let ini := initialSlashes p
  let comps := ((splitSep p).foldl (normStep ini) []).reverse
  let out := String.intercalate "" (List.replicate ini sep) ++
    String.intercalate sep comps
  if out == "" then "." else out

/-- join_paths from stow.py: normpath of the join of all arguments. -/
def join_paths (a : String) (rest : List String) : String :=
  normpath (joinMany a rest)

/-- os.path.isabs on posix. -/
def isabs (p : String) : Bool := sstartsWith p sep

/-- One pending mutation.  Python uses three little classes (Task.Link,
Task.Dir, Task.Mv); a single record with the union of their fields keeps the
same observable attributes.  action is one of create, remove, skip, move;
type is link, dir or file. -/
structure Task where
  action : String
  type : String
  path : String
  source : String := ""
  dest : String := ""
  deriving Repr, DecidableEq

/-- Python exceptions that the embedded code can raise. -/
inductive Err where
  | keyError (key : String)
  | indexError
  | typeError (msg : String)
  | nameError (missing : String)
  | runtimeError (msg : String)
  | assertionError
  | osError (msg : String)
  | recursionError
  deriving Repr, DecidableEq

/-- Abstract view of the real filesystem during planning.  Every query takes
the current working directory first, then the (possibly relative) path, like
the corresponding os functions.  pexists is os.path.exists. -/
structure FS where
  islink : String → String → Bool
  readlink : String → String → String
  isdir : String → String → Bool
  pexists : String → String → Bool
  listdir : String → String → List String

/-- Configuration of a Stow object that planning never mutates.  The compiled
regular expressions of ignores, defers and overrides are modeled as string
predicates (re.match or re.search applied to a path). -/
structure Config where
  target : String
  stow_path : String
  adopt : Bool := false
  dotfiles : Bool := false
  no_folding : Bool := false
  ignores : List (String → Bool) := []
  defers : List (String → Bool) := []
  overrides : List (String → Bool) := []

/-- Mutable fields of a Stow object plus the process working directory.
link_task_for and dir_task_for map a path to the position of its task in the
tasks list, modelling the sharing of Task objects between list and indexes.
The conflicts dict of dicts becomes one association list per direction. -/
structure StowState where
  cwd : String
  tasks : List Task := []
  link_task_for : List (String × Nat) := []
  dir_task_for : List (String × Nat) := []
  conflicts_stow : List (String × List String) := []
  conflicts_unstow : List (String × List String) := []
  action_count : Nat := 0
  conflict_count : Nat := 0
  warnings : List String := []
  deriving Repr, DecidableEq

/-- Lookup in an association list, like dict.get. -/
def alookup {α : Type} (m : List (String × α)) (k : String) : Option α :=
  (m.find? (fun kv => kv.1 == k)).map (fun kv => kv.2)

/-- Set a key in an association list, like dict assignment. -/
def aset {α : Type} (m : List (String × α)) (k : String) (v : α) :
    List (String × α) :=
  if (m.find? (fun kv => kv.1 == k)).isSome then
    m.map (fun kv => if kv.1 == k then (k, v) else kv)
  else m ++ [(k, v)]

/-- Delete a key from an association list, like del d[k]. -/
def adel {α : Type} (m : List (String × α)) (k : String) : List (String × α) :=
  m.filter (fun kv => kv.1 != k)

/-- The planning monad: state plus Python exceptions. -/
abbrev M (α : Type) : Type := EStateM Err StowState α

/-- Placeholder task returned by out-of-range index reads; indexes are only
ever stored for positions that exist, so it is never observed. -/
def Task.dummy : Task := { action := "", type := "", path := "" }

/-- Read the task at a position of the task list. -/
def taskAt (st : StowState) (i : Nat) : Task :=
  (st.tasks.get? i).getD Task.dummy

/-- The Task object a path maps to in link_task_for, if any. -/
def linkTask (st : StowState) (path : String) : Option Task :=
  (alookup st.link_task_for path).map (taskAt st)

/-- The Task object a path maps to in dir_task_for, if any. -/
def dirTask (st : StowState) (path : String) : Option Task :=
  (alookup st.dir_task_for path).map (taskAt st)

/-- In-place mutation of the action attribute of the task stored at a
position of the task list (visible through both indexes, as in Python). -/
def setTaskAction (st : StowState) (i : Nat) (a : String) : StowState :=
  { st with tasks := st.tasks.set i { taskAt st i with action := a } }

/-- warnings.warn: advisory, non-fatal. -/
def warnM (msg : String) : M Unit :=
  modify (fun st => { st with warnings := st.warnings ++ [msg] })

/-- Stow.parent_link_scheduled_for_removal compares
link_task_for.get(prefix) == "remove".  The values of link_task_for are Task
objects and a Task object never compares equal to a Python string, so the
comparison is always False; this helper records that fact as the embedding of
that comparison. -/
def optTaskEqRemoveStr (_o : Option Task) : Bool := false

/-- Loop of Stow.parent_link_scheduled_for_removal over path components. -/
def parent_link_removal_loop (st : StowState) : String → List String → Bool
  | _, [] => false
  | pfx, part :: rest =>
    let pfx := join2 pfx part
    if optTaskEqRemoveStr (linkTask st pfx) then true
    else parent_link_removal_loop st pfx rest

/-- Stow.parent_link_scheduled_for_removal. -/
def parent_link_scheduled_for_removal (st : StowState) (path : String) : Bool :=
  parent_link_removal_loop st "" (splitSep path)

/-- Stow.is_a_link: consult the link task index first, the real filesystem
second. -/
def is_a_link (fs : FS) (st : StowState) (path : String) : Bool :=
  let viaTask : Option Bool :=
    match linkTask st path with
    | some t =>
      if t.action == "remove" then some false
      else if t.action == "create" then some true
      else none
    | none => none
  match viaTask with
  | some b => b
  | none =>
    if fs.islink st.cwd path then !parent_link_scheduled_for_removal st path
    else false

/-- Stow.read_a_link. -/
def read_a_link (fs : FS) (path : String) : M String := do
  let st ← get
  let viaTask : Option (Except Err String) :=
    match linkTask st path with
    | some t =>
      if t.action == "create" then some (Except.ok t.source)
      else if t.action == "remove" then
        some (Except.error (Err.runtimeError
          ("read_a_link() passed a path scheduled for removal: " ++ path)))
      else none
    | none => none
  match viaTask with
  | some (Except.ok s) => pure s
  | some (Except.error e) => throw e
  | none =>
    if fs.islink st.cwd path then pure (fs.readlink st.cwd path)
    else throw (Err.runtimeError ("read_a_link() passed a non link path: " ++ path))

/-- Stow.marked_stow_dir: a directory is marked when it contains a file
named .stow or .nonstow. -/
def marked_stow_dir (fs : FS) (st : StowState) (target : String) : Bool :=
  fs.pexists st.cwd (join2 target ".stow") ||
  fs.pexists st.cwd (join2 target ".nonstow")

/-- Marker scan of Stow.find_stowed_path: walk the candidate path
component-wise and stop at the first prefix that is a marked stow directory.
The comparison i + 1 == len(path) is against the length of the path STRING,
as in the source; internal_error is an undefined name, hence NameError; the
pathparts[i + 1] subscript (the head of the remaining components) can raise
IndexError.  The loop over range(len(pathparts)) with pathparts[i] becomes
structural recursion over the component list, carrying the index i. -/
def find_marker_loop (fs : FS) (st : StowState) (path : String) :
    List String → Nat → String → Option (Except Err (String × String × String))
  | [], _, _ => none
  | part :: rest, i, dir =>
    let dir := join2 dir part
    if marked_stow_dir fs st dir then
      if i + 1 == path.length then some (Except.error (Err.nameError "internal_error"))
      else
        match rest.head? with
        | some package => some (Except.ok (path, dir, package))
        | none => some (Except.error Err.indexError)
    else find_marker_loop fs st path rest (i + 1) dir

/-- Common-prefix loop of Stow.find_stowed_path.  The source writes
while path and stow_path, testing the unsplit path STRING (always nonempty)
instead of the component list it pops from, so the loop keeps popping while
the stow_path components last and pathparts.pop(0) can raise IndexError.
Returns none for the early not-under return, otherwise the leftover lists. -/
def strip_common_loop (path : String) :
    List String → List String → Except Err (Option (List String × List String))
  | pathparts, [] => .ok (some (pathparts, []))
  | pathparts, s :: ss =>
    if path == "" then .ok (some (pathparts, s :: ss))
    else
      match pathparts with
      | [] => .error Err.indexError
      | p :: ps => if p != s then .ok none else strip_common_loop path ps ss

/-- Raise an Except value into the planning monad. -/
def liftE {α : Type} (x : Except Err α) : M α :=
  match x with
  | .ok a => pure a
  | .error e => throw e

/-- Fallback of Stow.find_stowed_path when no marker was found: strip the
common prefix with the configured stow directory.  The source pops from the
component list while testing the unsplit string, so pathparts.pop(0) can
raise IndexError (both inside the loop and for the package right after it);
the final debug call evaluates os.path.join(*pathparts) eagerly, which
raises TypeError when no components remain after the package. -/
def find_fallback (cfg : Config) (path : String) (pathparts : List String) :
    Except Err (String × String × String) :=
  match strip_common_loop path pathparts (splitSep cfg.stow_path) with
  | .error e => .error e
  | .ok none => .ok ("", "", "")
  | .ok (some (leftPath, leftStow)) =>
    if !leftStow.isEmpty then .ok ("", "", "")
    else
      match leftPath with
      | [] => .error Err.indexError
      | package :: rest =>
        if rest.isEmpty then
          .error (Err.typeError "join() missing 1 required positional argument")
        else .ok (path, cfg.stow_path, package)

/-- Stow.find_stowed_path: resolve a symlink found at target with content
source to an owning (path, stow dir, package) triple; first the marker scan,
then (after a warning on an absolute/relative mismatch) the common-prefix
fallback. -/
def find_stowed_path (cfg : Config) (fs : FS) (target source : String) :
    M (String × String × String) := do
  let path := join_paths target [pardir, source]
  let st ← get
  let pathparts := splitSep path
  match find_marker_loop fs st path pathparts 0 "" with
  | some r => liftE r
  | none => do
    if (isabs path != isabs cfg.stow_path) then
      warnM ("BUG in find_stowed_path? Absolute/relative mismatch between Stow dir "
        ++ cfg.stow_path ++ " and path " ++ path)
    liftE (find_fallback cfg path pathparts)

/-- Stow.path_owned_by_package. -/
def path_owned_by_package (cfg : Config) (fs : FS) (target source : String) :
    M String := do
  let r ← find_stowed_path cfg fs target source
  pure r.2.2

/-- The conflicts dict for one direction; any other key would be KeyError. -/
def conflictsFor (st : StowState) (action : String) :
    Option (List (String × List String)) :=
  if action == "stow" then some st.conflicts_stow
  else if action == "unstow" then some st.conflicts_unstow
  else none

/-- Store the conflicts dict for one direction back into the state. -/
def setConflictsFor (st : StowState) (action : String)
    (m : List (String × List String)) : StowState :=
  if action == "stow" then { st with conflicts_stow := m }
  else if action == "unstow" then { st with conflicts_unstow := m }
  else st

/-- Stow.conflict.  The guard if not self.conflicts[action][package] subscripts
the per-direction dict before testing, so a package with no recorded conflicts
raises KeyError right there; only if the key already existed would the message
be appended, the counter bumped and RuntimeError(message) raised. -/
def conflict (action package message : String) : M Unit := do
  let st ← get
  match conflictsFor st action with
  | none => throw (Err.keyError action)
  | some m =>
    match alookup m package with
    | none => throw (Err.keyError package)
    | some msgs => do
      let m := if msgs.isEmpty then aset m package [] else m
      let msgs2 := (alookup m package).getD []
      let m := aset m package (msgs2 ++ [message])
      set (setConflictsFor st action m)
      modify (fun s => { s with conflict_count := s.conflict_count + 1 })
      throw (Err.runtimeError message)

/-- Stow.is_a_dir: consult the link task index first, then the real
filesystem. -/
def is_a_dir (fs : FS) (st : StowState) (path : String) : Bool :=
  let viaTask : Option Bool :=
    match linkTask st path with
    | some t =>
      if t.action == "remove" then some false
      else if t.action == "create" then some true
      else none
    | none => none
  match viaTask with
  | some b => b
  | none =>
    if parent_link_scheduled_for_removal st path then false
    else if fs.isdir st.cwd path then true
    else false

/-- Stow.is_a_node: whether the path is a current or planned node, combining
the pending link action and dir action. -/
def is_a_node (fs : FS) (path : String) : M Bool := do
  let st ← get
  let laction := match linkTask st path with
    | some t => t.action
    | none => ""
  let daction := match dirTask st path with
    | some t => t.action
    | none => ""
  if laction == "remove" then
    if daction == "remove" then
      throw (Err.runtimeError ("removing link and dir: " ++ path))
    else if daction == "create" then pure true
    else pure false
  else if laction == "create" then
    if daction == "remove" then pure true
    else if daction == "create" then
      throw (Err.runtimeError ("creating link and dir: " ++ path))
    else pure true
  else
    if daction == "remove" then pure false
    else if daction == "create" then pure true
    else
      if parent_link_scheduled_for_removal st path then pure false
      else pure (fs.pexists st.cwd path)

/-- Stow.do_link: guarded insert of a create-link task.  internal_error is an
undefined name in stow.py, so the clash branches raise NameError. -/
def do_link (oldfile newfile : String) : M Unit := do
  let st ← get
  match dirTask st newfile with
  | some task_ref =>
    if task_ref.action == "create" then
      if task_ref.type == "dir" then throw (Err.nameError "internal_error")
      else pure ()
    else if task_ref.action == "remove" then pure ()
    else throw (Err.nameError "internal_error")
  | none => pure ()
  match alookup st.link_task_for newfile with
  | some i =>
    let task_ref := taskAt st i
    if task_ref.action == "create" then
      if task_ref.source != oldfile then throw (Err.nameError "internal_error")
      else return ()
    else if task_ref.action == "remove" then
      if task_ref.source == oldfile then do
        set (setTaskAction st i "skip")
        modify (fun s => { s with link_task_for := adel s.link_task_for newfile })
        return ()
      else pure ()
    else throw (Err.nameError "internal_error")
  | none => pure ()
  modify (fun s =>
    let t : Task := { action := "create", type := "link", path := newfile, source := oldfile }
    { s with tasks := s.tasks ++ [t],
             link_task_for := aset s.link_task_for newfile s.tasks.length })

/-- Stow.do_unlink: guarded insert of a remove-link task; reading the link
content with os.readlink raises OSError if the file is not a symlink. -/
def do_unlink (fs : FS) (file : String) : M Unit := do
  let st ← get
  match alookup st.link_task_for file with
  | some i =>
    let task_ref := taskAt st i
    if task_ref.action == "remove" then return ()
    else if task_ref.action == "create" then do
      set (setTaskAction st i "skip")
      modify (fun s => { s with link_task_for := adel s.link_task_for file })
      return ()
    else throw (Err.nameError "internal_error")
  | none => pure ()
  match dirTask st file with
  | some t =>
    if t.action == "create" then throw (Err.nameError "internal_error")
    else pure ()
  | none => pure ()
  if fs.islink st.cwd file then
    let source := fs.readlink st.cwd file
    modify (fun s =>
      let t : Task := { action := "remove", type := "link", path := file, source := source }
      { s with tasks := s.tasks ++ [t],
               link_task_for := aset s.link_task_for file s.tasks.length })
  else throw (Err.osError ("readlink: " ++ file))

/-- Stow.do_mv.  With a pre-existing link task the source calls the undefined
internal_error (NameError); with a pre-existing dir task it first subscripts
link_task_for with the same key, which raises KeyError since the first guard
already ruled that key out. -/
def do_mv (src dst : String) : M Unit := do
  let st ← get
  match alookup st.link_task_for src with
  | some _ => throw (Err.nameError "internal_error")
  | none =>
    match dirTask st src with
    | some _ => throw (Err.keyError src)
    | none => pure ()
  modify (fun s =>
    let t : Task := { action := "move", type := "file", path := src, dest := dst }
    { s with tasks := s.tasks ++ [t] })

/-- Stow.do_mkdir: guarded insert of a create-dir task.  In the
reverts-previous-action branch the source writes
self.dir_task_for[dir].action == "skip" with a comparison operator, so the
old remove task keeps its action and only the index entry is dropped. -/
def do_mkdir (dir : String) : M Unit := do
  let st ← get
  match linkTask st dir with
  | some task_ref =>
    if task_ref.action == "create" then throw (Err.nameError "internal_error")
    else if task_ref.action == "remove" then pure ()
    else throw (Err.nameError "internal_error")
  | none => pure ()
  match alookup st.dir_task_for dir with
  | some i =>
    let task_ref := taskAt st i
    if task_ref.action == "create" then return ()
    else if task_ref.action == "remove" then do
      modify (fun s => { s with dir_task_for := adel s.dir_task_for dir })
      return ()
    else throw (Err.nameError "internal_error")
  | none => pure ()
  modify (fun s =>
    let t : Task := { action := "create", type := "dir", path := dir }
    { s with tasks := s.tasks ++ [t],
             dir_task_for := aset s.dir_task_for dir s.tasks.length })

/-- Stow.do_rmdir: guarded insert of a remove-dir task.  In the
reverts-previous-action branch the source writes
self.link_task_for[dir].action = "skip", consulting the LINK index; the first
guard has already ruled out a link task at dir, so this subscript always
raises KeyError there. -/
def do_rmdir (dir : String) : M Unit := do
  let st ← get
  match linkTask st dir with
  | some _ => throw (Err.nameError "internal_error")
  | none => pure ()
  match alookup st.dir_task_for dir with
  | some i =>
    let task_ref := taskAt st i
    if task_ref.action == "remove" then return ()
    else if task_ref.action == "create" then do
      match alookup st.link_task_for dir with
      | none => throw (Err.keyError dir)
      | some j => do
        set (setTaskAction st j "skip")
        modify (fun s => { s with link_task_for := adel s.link_task_for dir })
        return ()
    else throw (Err.nameError "internal_error")
  | none => pure ()
  modify (fun s =>
    let t : Task := { action := "remove", type := "dir", path := dir }
    { s with tasks := s.tasks ++ [t],
             dir_task_for := aset s.dir_task_for dir s.tasks.length })

/-- Stow.should_skip_target_which_is_stow_dir: skip (with a warning) a target
that is the configured stow directory or a marked stow directory. -/
def should_skip_target_which_is_stow_dir (cfg : Config) (fs : FS)
    (target : String) : M Bool := do
  if target == cfg.stow_path then do
    warnM ("skipping target which was current stow directory " ++ target)
    return true
  let st ← get
  if marked_stow_dir fs st target then do
    warnM ("skipping protected directory " ++ target)
    return true
  return false

/-- Stow.ignore: raise on an empty target, otherwise test the compiled
ignore patterns. -/
def ignore (cfg : Config) (_stow_path _package target : String) :
    Except Err Bool :=
  if target.length == 0 then
    .error (Err.runtimeError "ignore() called with empty target")
  else .ok (cfg.ignores.any (fun pat => pat target))

/-- Stow.defer: whether any defer pattern matches the path. -/
def deferOf (cfg : Config) (path : String) : Bool :=
  cfg.defers.any (fun pat => pat path)

/-- Stow.override: whether any override pattern matches the path. -/
def overrideOf (cfg : Config) (path : String) : Bool :=
  cfg.overrides.any (fun pat => pat path)

/-- Loop of Stow.foldable over the children of the target.  Skips children
that are not nodes, returns none for the early empty-string returns (a child
that is not a link, or links with different parents), otherwise the common
parent accumulated so far.  A link with empty content calls the undefined
name error, hence NameError. -/
def fold_scan (fs : FS) (target : String) :
    List String → String → M (Option String)
  | [], parent => pure (some parent)
  | node :: rest, parent => do
    let path := join_paths target [node]
    let isN ← is_a_node fs path
    if !isN then fold_scan fs target rest parent
    else do
      let st ← get
      if !is_a_link fs st path then pure none
      else do
        let source ← read_a_link fs path
        if source == "" then throw (Err.nameError "error")
        else if parent == "" then
          fold_scan fs target rest (join_paths source [pardir])
        else if parent != join_paths source [pardir] then pure none
        else fold_scan fs target rest parent

/-- Stow.foldable: target is foldable when every live child is a link and all
their sources share one parent that begins with ../ (the assert) and is owned
by a package. -/
def foldable (cfg : Config) (fs : FS) (target : String) : M String := do
  if cfg.no_folding then return ""
  let st ← get
  let scanned ← fold_scan fs target (fs.listdir st.cwd target) ""
  match scanned with
  | none => return ""
  | some parent =>
    if parent == "" then return ""
    else if sstartsWith parent (pardir ++ sep) then do
      let parent := parent.drop (pardir ++ sep).length
      let pkg ← path_owned_by_package cfg fs target parent
      if pkg != "" then return parent else return ""
    else throw Err.assertionError

/-- Loop of Stow.fold_tree: unlink every live child. -/
def fold_tree_loop (fs : FS) (target : String) : List String → M Unit
  | [] => pure ()
  | node :: rest => do
    let isN ← is_a_node fs (join_paths target [node])
    if !isN then fold_tree_loop fs target rest
    else do
      do_unlink fs (join_paths target [node])
      fold_tree_loop fs target rest

/-- Stow.fold_tree: unlink every live child, remove the emptied directory,
link it to the common source. -/
def fold_tree (fs : FS) (target source : String) : M Unit := do
  let st ← get
  fold_tree_loop fs target (fs.listdir st.cwd target)
  do_rmdir target
  do_link source target

mutual

/-- Stow.stow_node: resolve one path of the package tree to one outcome.  The
absolute-symlink conflict message formats the undefined name second_source,
so that branch raises NameError before any conflict is recorded; the
could-not-read-link branch calls the undefined name error; the dotfiles
adjustment calls the undefined name adjust_dotfile. -/
def stow_node (cfg : Config) (fs : FS) :
    Nat → String → String → String → String → M Unit
  | 0, _, _, _, _ => throw Err.recursionError
  | fuel + 1, stow_path, package, target, source => do
    let path := join_paths stow_path [package, target]
    let st ← get
    if fs.islink st.cwd source then do
      let l ← read_a_link fs source
      if isabs l then throw (Err.nameError "second_source")
    let st ← get
    if is_a_link fs st target then do
      let existing_source ← read_a_link fs target
      if existing_source == "" then throw (Err.nameError "error")
      let r ← find_stowed_path cfg fs target existing_source
      let existing_path := r.1
      let existing_stow_path := r.2.1
      let existing_package := r.2.2
      if existing_path == "" then do
        conflict "stow" package ("existing target is not owned by stow: " ++ target)
        return ()
      let isN ← is_a_node fs existing_path
      if isN then
        if existing_source == source then pure ()
        else if deferOf cfg target then pure ()
        else if overrideOf cfg target then do
          do_unlink fs target
          do_link source target
        else do
          let st ← get
          if is_a_dir fs st (join_paths target [pardir, source]) &&
             is_a_dir fs st (join_paths target [pardir, existing_source]) then do
            do_unlink fs target
            do_mkdir target
            stow_contents cfg fs fuel existing_stow_path existing_package target
              (join2 pardir existing_source)
            stow_contents cfg fs fuel cfg.stow_path package target
              (join2 pardir source)
          else
            conflict "stow" package
              ("existing target is stowed to a different package: " ++ target
                ++ " => " ++ existing_source)
      else do
        do_unlink fs target
        do_link source target
    else do
      let isN ← is_a_node fs target
      if isN then do
        let st ← get
        if is_a_dir fs st target then
          stow_contents cfg fs fuel cfg.stow_path package target (join2 pardir source)
        else
          if cfg.adopt then do
            do_mv target path
            do_link source target
          else
            conflict "stow" package
              ("existing target is neither a link nor a dir: " ++ target)
      else do
        let st ← get
        if cfg.no_folding && fs.isdir st.cwd path && !fs.islink st.cwd path then do
          do_mkdir target
          stow_contents cfg fs fuel cfg.stow_path package target (join2 pardir source)
        else
          do_link source target
  termination_by structural fuel _ _ _ _ => fuel

/-- Stow.stow_contents: stow every child of the package subtree at target. -/
def stow_contents (cfg : Config) (fs : FS) :
    Nat → String → String → String → String → M Unit
  | 0, _, _, _, _ => throw Err.recursionError
  | fuel + 1, stow_path, package, target, source => do
    let path := join_paths stow_path [package, target]
    let skip ← should_skip_target_which_is_stow_dir cfg fs target
    if skip then return ()
    let st ← get
    if !fs.isdir st.cwd path then
      throw (Err.runtimeError ("called with non-directory path: " ++ path))
    let isN ← is_a_node fs target
    if !isN then
      throw (Err.runtimeError ("called with non-directory target: " ++ target))
    stow_contents_loop cfg fs fuel stow_path package target source
      (fs.listdir st.cwd path)
  termination_by structural fuel _ _ _ _ => fuel

/-- Child loop of Stow.stow_contents. -/
def stow_contents_loop (cfg : Config) (fs : FS) :
    Nat → String → String → String → String → List String → M Unit
  | fuel, stow_path, package, target, source, nodes =>
    match fuel, nodes with
    | _, [] => pure ()
    | 0, _ :: _ => throw Err.recursionError
    | fuel + 1, node :: rest => do
      let node_target := join_paths target [node]
      match ignore cfg stow_path package node_target with
      | .error e => throw e
      | .ok true => stow_contents_loop cfg fs fuel stow_path package target source rest
      | .ok false => do
        if cfg.dotfiles then throw (Err.nameError "adjust_dotfile")
        stow_node cfg fs fuel stow_path package node_target (join_paths source [node])
        stow_contents_loop cfg fs fuel stow_path package target source rest
  termination_by structural fuel _ _ _ _ _ => fuel

end

mutual

/-- Stow.unstow_node: undo one path of the package tree.  The
could-not-read-link branch calls the undefined name error; links stowed to a
different package are silently ignored (the conflict branch of the Perl
original is commented out in the source). -/
def unstow_node (cfg : Config) (fs : FS) :
    Nat → String → String → String → M Unit
  | 0, _, _, _ => throw Err.recursionError
  | fuel + 1, stow_path, package, target => do
    let path := join_paths stow_path [package, target]
    let st ← get
    if is_a_link fs st target then do
      let existing_source ← read_a_link fs target
      if existing_source == "" then throw (Err.nameError "error")
      if isabs existing_source then do
        warnM ("Ignoring an absolute symlink: " ++ target ++ " => " ++ existing_source)
        return ()
      let r ← find_stowed_path cfg fs target existing_source
      let existing_path := r.1
      if existing_path == "" then do
        conflict "unstow" package
          ("existing target is not owned by stow: " ++ target ++ " => " ++ existing_source)
        return ()
      let st ← get
      if fs.pexists st.cwd existing_path then do
        if cfg.dotfiles then throw (Err.nameError "adjust_dotfile")
        if existing_path == path then do_unlink fs target
        else pure ()
      else do_unlink fs target
    else do
      let st ← get
      if fs.pexists st.cwd target then do
        if fs.isdir st.cwd target then do
          unstow_contents cfg fs fuel stow_path package target
          let parent ← foldable cfg fs target
          if parent != "" then fold_tree fs target parent
          else pure ()
        else
          conflict "unstow" package
            ("existing target is neither a link nor a dir: " ++ target)
      else pure ()
  termination_by structural fuel _ _ _ => fuel

/-- Stow.unstow_contents: unstow every child of the package subtree at
target.  The non-directory-path and invalid-target branches call the
undefined name error, hence NameError. -/
def unstow_contents (cfg : Config) (fs : FS) :
    Nat → String → String → String → M Unit
  | 0, _, _, _ => throw Err.recursionError
  | fuel + 1, stow_path, package, target => do
    let path := join_paths stow_path [package, target]
    let skip ← should_skip_target_which_is_stow_dir cfg fs target
    if skip then return ()
    let st ← get
    if !fs.isdir st.cwd path then throw (Err.nameError "error")
    let isN ← is_a_node fs target
    if !isN then throw (Err.nameError "error")
    unstow_contents_loop cfg fs fuel stow_path package target
      (fs.listdir st.cwd path)
  termination_by structural fuel _ _ _ => fuel

/-- Child loop of Stow.unstow_contents. -/
def unstow_contents_loop (cfg : Config) (fs : FS) :
    Nat → String → String → String → List String → M Unit
  | fuel, stow_path, package, target, nodes =>
    match fuel, nodes with
    | _, [] => pure ()
    | 0, _ :: _ => throw Err.recursionError
    | fuel + 1, node :: rest => do
      let node_target := join_paths target [node]
      match ignore cfg stow_path package node_target with
      | .error e => throw e
      | .ok true => unstow_contents_loop cfg fs fuel stow_path package target rest
      | .ok false => do
        if cfg.dotfiles then throw (Err.nameError "adjust_dotfile")
        unstow_node cfg fs fuel stow_path package node_target
        unstow_contents_loop cfg fs fuel stow_path package target rest
  termination_by structural fuel _ _ _ _ => fuel

end

/-- Stow.package_path: the package must be an existing subdirectory of the
stow directory. -/
def package_path (cfg : Config) (fs : FS) (package : String) : M String := do
  let path := join_paths cfg.stow_path [package]
  let st ← get
  if !fs.isdir st.cwd path then
    throw (Err.runtimeError ("The stow directory " ++ cfg.stow_path ++
      " does not contain package " ++ package))
  pure path

/-- Destination working directory of os.chdir(path) from cwd. -/
def chdirDest (cwd path : String) : String :=
  if isabs path then normpath path else join_paths cwd [path]

/-- The cd context manager of stow.py: save the working directory, chdir,
run the body, chdir back.  The generator has no try/finally around its
yield, so when the body raises, the restoring chdir is never executed and
the working directory stays wherever the body left it. -/
def cd {α : Type} (path : String) (body : M α) : M α := fun s =>
  let old_dir := s.cwd
  match body { s with cwd := chdirDest s.cwd path } with
  | .ok a s1 => .ok a { s1 with cwd := old_dir }
  | .error e s1 => .error e s1

/-- Package loop of Stow.plan_stow. -/
def plan_stow_loop (cfg : Config) (fs : FS) (fuel : Nat) :
    List String → M Unit
  | [] => pure ()
  | package :: rest => do
    let path ← package_path cfg fs package
    stow_contents cfg fs fuel cfg.stow_path package "." path
    modify (fun s => { s with action_count := s.action_count + 1 })
    plan_stow_loop cfg fs fuel rest

/-- Stow.plan_stow: plan the installation of each package, inside cd. -/
def plan_stow (cfg : Config) (fs : FS) (fuel : Nat) (packages : List String) :
    M Unit :=
  cd cfg.target (plan_stow_loop cfg fs fuel packages)

/-- Package loop of Stow.plan_unstow. -/
def plan_unstow_loop (cfg : Config) (fs : FS) (fuel : Nat) :
    List String → M Unit
  | [] => pure ()
  | package :: rest => do
    unstow_contents cfg fs fuel cfg.stow_path package "."
    modify (fun s => { s with action_count := s.action_count + 1 })
    plan_unstow_loop cfg fs fuel rest

/-- Stow.plan_unstow: plan the removal of each package, inside cd; unlike
plan_stow there is no package_path existence check. -/
def plan_unstow (cfg : Config) (fs : FS) (fuel : Nat) (packages : List String) :
    M Unit :=
  cd cfg.target (plan_unstow_loop cfg fs fuel packages)

/-- One primitive filesystem mutation of the executor. -/
inductive Prim where
  | mkdir (path : String)
  | symlink (source path : String)
  | rmdir (path : String)
  | unlink (path : String)
  | rename (path dest : String)
  deriving Repr, DecidableEq

/-- Stow.process_task: map one task to its primitive.  The fallthrough
formats "bad task: " + task, concatenating a string with a Task object,
which raises TypeError. -/
def process_task (task : Task) : Except Err Prim :=
  if task.action == "create" then
    if task.type == "dir" then .ok (Prim.mkdir task.path)
    else if task.type == "link" then .ok (Prim.symlink task.source task.path)
    else .error (Err.typeError "can only concatenate str")
  else if task.action == "remove" then
    if task.type == "dir" then .ok (Prim.rmdir task.path)
    else if task.type == "link" then .ok (Prim.unlink task.path)
    else .error (Err.typeError "can only concatenate str")
  else if task.action == "move" then
    if task.type == "file" then .ok (Prim.rename task.path task.dest)
    else .error (Err.typeError "can only concatenate str")
  else .error (Err.typeError "can only concatenate str")

/-- Primitives of a task list, in order. -/
def primsOf : List Task → Except Err (List Prim)
  | [] => .ok []
  | t :: ts => do
    let p ← process_task t
    let ps ← primsOf ts
    .ok (p :: ps)

/-- Stow.process_tasks: strip skip tasks from the task list, then (inside cd)
apply each remaining task in insertion order; the returned list is the
sequence of primitive filesystem mutations the run performs. -/
def process_tasks (cfg : Config) : M (List Prim) := do
  modify (fun s => { s with tasks := s.tasks.filter (fun t => t.action != "skip") })
  let st ← get
  if st.tasks.isEmpty then pure []
  else
    cd cfg.target (fun s =>
      match primsOf st.tasks with
      | .ok ps => .ok ps s
      | .error e => .error e s)

/-- Error of a finished computation, if it raised. -/
def errOf {α : Type} (r : EStateM.Result Err StowState α) : Option Err :=
  match r with
  | .error e _ => some e
  | .ok _ _ => none

/-- Final state of a finished computation. -/
def stateOf {α : Type} (r : EStateM.Result Err StowState α) : StowState :=
  match r with
  | .error _ s => s
  | .ok _ s => s

/-- Returned value of a finished computation, if it did not raise. -/
def valOf {α : Type} (r : EStateM.Result Err StowState α) : Option α :=
  match r with
  | .error _ _ => none
  | .ok a _ => some a

/-- A finite filesystem given by explicit tables: the symlinks with their
contents, the directories, the paths for which os.path.exists holds, and the
directory listings.  The queries ignore the working directory, which is
constant during the runs examined. -/
structure FlatFS where
  links : List (String × String)
  dirs : List String
  exist : List String
  children : List (String × List String)

/-- View a FlatFS through the abstract FS interface. -/
def FlatFS.toFS (f : FlatFS) : FS :=
  { islink := fun _ p => (alookup f.links p).isSome
  , readlink := fun _ p => (alookup f.links p).getD ""
  , isdir := fun _ p => f.dirs.contains p
  , pexists := fun _ p => f.exist.contains p
  , listdir := fun _ p => (alookup f.children p).getD [] }

/-- The warning text produced by should_skip_target_which_is_stow_dir for a
target it skips. -/
def skipMsg (cfg : Config) (target : String) : String :=
  if target == cfg.stow_path then
    "skipping target which was current stow directory " ++ target
  else "skipping protected directory " ++ target

/-- Empty filesystem. -/
def noFS : FS := FlatFS.toFS { links := [], dirs := [], exist := [], children := [] }

/-- Filesystem for the task-reversal evaluation: one symlink f with content
s. -/
def c3fs : FS := FlatFS.toFS
  { links := [("f", "s")], dirs := [], exist := ["f"], children := [] }

/-- Configuration for the working-directory evaluation: stow dir is a
sibling of target t and contains no packages. -/
def c4cfg : Config := { target := "t", stow_path := "../stow" }

/-- Configuration for the absolute-symlink-source evaluation. -/
def c5cfg : Config := { target := "t", stow_path := "../stow" }

/-- Filesystem for the absolute-symlink-source evaluation: the package
member f is itself a symlink with the absolute content /abs/f. -/
def c5fs : FS := FlatFS.toFS
  { links := [("../stow/pkg/f", "/abs/f")]
  , dirs := ["../stow/pkg"]
  , exist := ["."]
  , children := [("../stow/pkg", ["f"])] }

/-- Configuration for the ownership-resolver evaluation. -/
def c6cfg : Config := { target := "t", stow_path := "../stow" }

/-- Configuration for the foldable evaluations: stow dir is a sibling of
target t. -/
def c8cfg : Config := { target := "t", stow_path := "../stow" }

/-- Filesystem reaching the assert in foldable from plan_unstow: package pkg
provides d/f, stowed as the link d/f, and the target directory d also holds
an unrelated symlink d/x with content ../z pointing one level up (z exists in
the target root, so d/x is a live node). -/
def c8fs : FS := FlatFS.toFS
  { links := [("d/f", "../../stow/pkg/d/f"), ("d/x", "../z")]
  , dirs := ["../stow/pkg", "../stow/pkg/d", "d"]
  , exist := [".", "d", "d/f", "d/x", "../stow/pkg/d/f", "z"]
  , children := [("../stow/pkg", ["d"]), ("../stow/pkg/d", ["f"]), ("d", ["f", "x"])] }

/-- Filesystem for the witness of the amended foldable property: the single
live child of d is the link d/x with content ../z, so the scan completes with
the common parent .., which does not start with ../. -/
def c8afs : FS := FlatFS.toFS
  { links := [("d/x", "../z")]
  , dirs := ["d"]
  , exist := ["d/x"]
  , children := [("d", ["x"])] }

/-- Configuration for the unstow-owned-link witness. -/
def c7cfg : Config := { target := "t", stow_path := "../stow" }

/-- Filesystem for the unstow-owned-link witness: a single target link f to
the package file. -/
def c7fs : FS := FlatFS.toFS
  { links := [("f", "../stow/pkg/f")]
  , dirs := []
  , exist := ["../stow/pkg/f"]
  , children := [] }

/-- Filesystem for the missing-package witness: the target exists but the
stow directory holds no package. -/
def c9fs : FS := FlatFS.toFS
  { links := [], dirs := [], exist := ["."], children := [] }

/-- Configuration for the missing-package witness. -/
def c9cfg : Config := { target := "t", stow_path := "../stow" }

/-- Configuration for the marker witness. -/
def c10cfg : Config := { target := "t", stow_path := "../stow" }

/-- Filesystem for the marker witness: the target subdirectory x contains a
.nonstow marker file. -/
def c10fs : FS := FlatFS.toFS
  { links := [], dirs := [], exist := ["x/.nonstow"], children := [] }

mutual

/-- Formalization of the hypothesis of the idempotence property: the on-disk
state of a package node whose first stow has been applied.  The node's source
is not an absolute symlink, and the target is either a symlink whose content
is exactly the relative source the planner computes for it (nonempty, and
recognized by the ownership resolver: a nonempty triple whose resolved path
exists, with no warning), or a real directory whose contents are recursively
in the applied state.  The fuel index mirrors the fuel consumption of the
planner functions. -/
def InstalledNode (cfg : Config) (fs : FS) (cwd : String) :
    Nat → String → String → String → Prop
  | 0, _, _, _ => False
  | fuel + 1, package, target, source =>
      (¬(fs.islink cwd source = true ∧ isabs (fs.readlink cwd source) = true))
      ∧ ((fs.islink cwd target = true
          ∧ fs.readlink cwd target = source
          ∧ (source == "") = false
          ∧ ∃ ep esp epkg, (ep == "") = false ∧ fs.pexists cwd ep = true
              ∧ ∀ st : StowState, st.cwd = cwd →
                  find_stowed_path cfg fs target source st = .ok (ep, esp, epkg) st)
        ∨ (fs.islink cwd target = false
           ∧ fs.pexists cwd target = true
           ∧ fs.isdir cwd target = true
           ∧ InstalledContents cfg fs cwd fuel package target (join2 pardir source)))
  termination_by structural fuel _ _ _ => fuel

/-- Applied state of a package directory: the target is not protected, the
package subtree directory exists, the target exists, and every child of the
package subtree is in the applied state (or ignored). -/
def InstalledContents (cfg : Config) (fs : FS) (cwd : String) :
    Nat → String → String → String → Prop
  | 0, _, _, _ => False
  | fuel + 1, package, target, source =>
      (target == cfg.stow_path) = false
      ∧ fs.pexists cwd (join2 target ".stow") = false
      ∧ fs.pexists cwd (join2 target ".nonstow") = false
      ∧ fs.isdir cwd (join_paths cfg.stow_path [package, target]) = true
      ∧ fs.pexists cwd target = true
      ∧ InstalledLoop cfg fs cwd fuel package target source
          (fs.listdir cwd (join_paths cfg.stow_path [package, target]))
  termination_by structural fuel _ _ _ => fuel

/-- Applied state of a list of package children: each non-ignored child node
is in the applied state. -/
def InstalledLoop (cfg : Config) (fs : FS) (cwd : String) :
    Nat → String → String → String → List String → Prop
  | _, _, _, _, [] => True
  | 0, _, _, _, _ :: _ => False
  | fuel + 1, package, target, source, node :: rest =>
      (if cfg.ignores.any (fun pat => pat (join_paths target [node])) then True
       else InstalledNode cfg fs cwd fuel package (join_paths target [node])
              (join_paths source [node]))
      ∧ InstalledLoop cfg fs cwd fuel package target source rest
  termination_by structural fuel _ _ _ _ => fuel

end

/-- Configuration for the idempotence witness. -/
def c2cfg : Config := { target := "t", stow_path := "../stow" }

/-- Effect of one executor primitive on a finite filesystem table, for runs
in which every created link points at an existing file (as here); directory
listings of the target side are not consulted by a stow run, so the children
table is left as is. -/
def FlatFS.applyPrim (f : FlatFS) : Prim → FlatFS
  | .mkdir p => { f with dirs := f.dirs ++ [p], exist := f.exist ++ [p] }
  | .symlink s p => { f with links := f.links ++ [(p, s)], exist := f.exist ++ [p] }
  | .rmdir p => { f with dirs := f.dirs.filter (fun q => q != p),
                         exist := f.exist.filter (fun q => q != p) }
  | .unlink p => { f with links := f.links.filter (fun kv => kv.1 != p),
                          exist := f.exist.filter (fun q => q != p) }
  | .rename _ _ => f

/-- Apply a list of executor primitives in order. -/
def FlatFS.applyPrims (f : FlatFS) (ps : List Prim) : FlatFS :=
  ps.foldl FlatFS.applyPrim f

/-- Filesystem before the first stow of the idempotence witness: package pkg
holds d/g and f, the target holds a pre-existing real directory d. -/
def c2flat0 : FlatFS :=
  { links := []
  , dirs := ["../stow/pkg", "../stow/pkg/d", "d"]
  , exist := [".", "d", "../stow/pkg/f", "../stow/pkg/d/g"]
  , children := [("../stow/pkg", ["d", "f"]), ("../stow/pkg/d", ["g"])] }

/-- Filesystem after applying the first stow of the idempotence witness: the
links d/g and f have been created. -/
def c2flat : FlatFS :=
  { links := [("d/g", "../../stow/pkg/d/g"), ("f", "../stow/pkg/f")]
  , dirs := ["../stow/pkg", "../stow/pkg/d", "d"]
  , exist := [".", "d", "../stow/pkg/f", "../stow/pkg/d/g", "d/g", "f"]
  , children := [("../stow/pkg", ["d", "f"]), ("../stow/pkg/d", ["g"])] }

/-- The applied filesystem of the idempotence witness. -/
def c2fs : FS := FlatFS.toFS c2flat

/-- Running a bind: run the first computation, feed its value to the second. -/
theorem run_bind {α β : Type} (x : M α) (f : α → M β) (s : StowState) :
    (x >>= f) s = match x s with
      | .ok a s1 => f a s1
      | .error e s1 => .error e s1 := by
  cases hx : x s <;> simp [Bind.bind, EStateM.bind, hx]

/-- Running a map over a computation. -/
theorem run_map {α β : Type} (g : α → β) (x : M α) (s : StowState) :
    (g <$> x) s = match x s with
      | .ok a s1 => .ok (g a) s1
      | .error e s1 => .error e s1 := by
  cases hx : x s <;> simp [Functor.map, EStateM.map, hx]

/-- Running pure returns the value and leaves the state. -/
theorem run_pure {α : Type} (a : α) (s : StowState) : (pure a : M α) s = .ok a s := rfl

/-- Running get returns the state. -/
theorem run_get (s : StowState) : (get : M StowState) s = .ok s s := rfl

/-- Running set replaces the state. -/
theorem run_set (s1 s : StowState) : (set s1 : M Unit) s = .ok PUnit.unit s1 := rfl

/-- Running modify applies the function to the state. -/
theorem run_modify (f : StowState → StowState) (s : StowState) :
    (modify f : M Unit) s = .ok PUnit.unit (f s) := rfl

/-- Running throw raises, keeping the state. -/
theorem run_throw {α : Type} (e : Err) (s : StowState) :
    (throw e : M α) s = .error e s := rfl

/-- C1: when the planner detects an incompatible claim over a path,
Stow.conflict is supposed to append the message to the conflict log under
(direction, package) and then raise a fatal error carrying that message.  In
fact the guard if not self.conflicts[action][package] subscripts the empty
per-direction dict first, so the very first conflict for any package raises
KeyError(package): nothing is appended to the log, the conflict counter stays
at zero, and the error carries the package name instead of the message.
Planning still halts, but not in the way the claim states. -/
theorem conflict_first_call_raises_keyerror_and_logs_nothing :
    conflict "stow" "pkg" "existing target is not owned by stow: f"
        { cwd := "/h/u/t" } =
      .error (Err.keyError "pkg") { cwd := "/h/u/t" } := by
  rfl

/-- C3: an exact reversal of a pending task is supposed to mark the old task
"skip", drop it from the index and emit nothing, so that the pair produces no
real filesystem operation.  This holds for the two link cases (evaluated in
the last two conjuncts), but not for the directory cases: do_mkdir after a
pending remove-dir leaves the old task action as "remove" (the source
compares with == instead of assigning), so the skip filter keeps it and
execution still runs rmdir; and do_rmdir after a pending create-dir consults
the link task index instead of the dir task index and raises KeyError. -/
theorem dir_task_reversal_is_broken :
    (stateOf ((do do_rmdir "d"; do_mkdir "d" : M Unit) { cwd := "/h/u/t" })).tasks
        = [{ action := "remove", type := "dir", path := "d" }]
    ∧ errOf ((do do_rmdir "d"; do_mkdir "d" : M Unit) { cwd := "/h/u/t" }) = none
    ∧ primsOf (((stateOf ((do do_rmdir "d"; do_mkdir "d" : M Unit)
          { cwd := "/h/u/t" })).tasks).filter (fun t => t.action != "skip"))
        = .ok [Prim.rmdir "d"]
    ∧ errOf ((do do_mkdir "d"; do_rmdir "d" : M Unit) { cwd := "/h/u/t" })
        = some (Err.keyError "d")
    ∧ (stateOf ((do do_unlink c3fs "f"; do_link "s" "f" : M Unit) { cwd := "/h/u/t" })).tasks
        = [{ action := "skip", type := "link", path := "f", source := "s" }]
    ∧ (stateOf ((do do_link "s" "f"; do_unlink c3fs "f" : M Unit) { cwd := "/h/u/t" })).tasks
        = [{ action := "skip", type := "link", path := "f", source := "s" }] := by
  exact ⟨rfl, rfl, rfl, rfl, rfl, rfl⟩

/-- C4: the cd scope guard is supposed to restore the previously active
working directory on every exit path, including when the body raises.  The
generator behind the context manager has no try/finally, so when planning
raises (here: a missing package), the restoring chdir never runs and the
working directory stays at the target instead of the original /h/u. -/
theorem cd_does_not_restore_cwd_when_body_raises :
    errOf (plan_stow c4cfg noFS 10 ["pkg"] { cwd := "/h/u" }) =
      some (Err.runtimeError
        "The stow directory ../stow does not contain package pkg")
    ∧ (stateOf (plan_stow c4cfg noFS 10 ["pkg"] { cwd := "/h/u" })).cwd = "/h/u/t"
    ∧ chdirDest "/h/u" "t" = "/h/u/t" := by
  exact ⟨rfl, rfl, rfl⟩

/-- C5: stowing a source that is itself an absolute symlink is supposed to
record a conflict keyed (stow, package) naming the source and skip the node.
The conflict message formats the undefined name second_source, so the branch
raises NameError before Stow.conflict is even entered: the final state is
unchanged (no conflict logged, no task emitted) and the run aborts with
NameError instead of a recorded conflict. -/
theorem abs_symlink_source_raises_nameerror_not_conflict :
    stow_node c5cfg c5fs 10 "../stow" "pkg" "f" "../stow/pkg/f"
        { cwd := "/h/u/t" } =
      .error (Err.nameError "second_source") { cwd := "/h/u/t" } := by
  rfl

/-- C6: with no marker found, find_stowed_path is supposed to return the
empty triple when the candidate is not a strict descendant of the stow
directory, the (path, stow dir, package) triple otherwise, and never raise.
The prefix loop tests the unsplit path string instead of the component list
it pops, so a candidate equal to the stow directory itself (target x, link
content ../stow) pops from an empty list and raises IndexError; and for a
candidate exactly one component below the stow directory (link content
../stow/pkg) the eagerly evaluated debug argument os.path.join(*pathparts)
has no arguments left and raises TypeError.  The deeper-descendant and
non-descendant cases behave as claimed. -/
theorem find_stowed_path_raises_on_shallow_candidates :
    find_stowed_path c6cfg noFS "x" "../stow" { cwd := "/h/u/t" } =
      .error Err.indexError { cwd := "/h/u/t" }
    ∧ find_stowed_path c6cfg noFS "x" "../stow/pkg" { cwd := "/h/u/t" } =
      .error (Err.typeError "join() missing 1 required positional argument")
        { cwd := "/h/u/t" }
    ∧ find_stowed_path c6cfg noFS "x" "../stow/pkg/f" { cwd := "/h/u/t" } =
      .ok ("../stow/pkg/f", "../stow", "pkg") { cwd := "/h/u/t" }
    ∧ find_stowed_path c6cfg noFS "x" "../other/pkg" { cwd := "/h/u/t" } =
      .ok ("", "", "") { cwd := "/h/u/t" } := by
  exact ⟨rfl, rfl, rfl, rfl⟩

/-- Running liftE of an ok value returns it. -/
theorem run_liftE_ok {α : Type} (x : Except Err α) (a : α) (s : StowState)
    (h : x = .ok a) : liftE x s = .ok a s := by
  subst h; rfl

/-- Running liftE of an error raises it. -/
theorem run_liftE_err {α : Type} (x : Except Err α) (e : Err) (s : StowState)
    (h : x = .error e) : liftE x s = .error e s := by
  subst h; rfl

/-- The only error the common-prefix loop can raise is IndexError. -/
theorem strip_common_loop_error_eq (path : String) :
    ∀ (sp pp : List String) (e : Err),
      strip_common_loop path pp sp = .error e → e = Err.indexError := by
  intro sp
  induction sp with
  | nil =>
    intro pp e h
    simp [strip_common_loop] at h
  | cons s ss ih =>
    intro pp e h
    rw [strip_common_loop.eq_def] at h
    simp only [] at h
    by_cases hp : (path == "") = true
    · simp [hp] at h
    · cases pp with
      | nil =>
        simp [hp] at h
        exact h.symm
      | cons p ps =>
        by_cases hps : (p != s) = true
        · simp [hp, hps] at h
        · simp only [Bool.not_eq_true] at hp hps
          simp only [hp, hps, Bool.false_eq_true, if_false] at h
          exact ih ps e h

/-- The common-prefix fallback never raises AssertionError (its errors are
IndexError and TypeError). -/
theorem find_fallback_error_ne_assert (cfg : Config) (path : String)
    (pp : List String) (e : Err) (h : find_fallback cfg path pp = .error e) :
    e ≠ Err.assertionError := by
  rw [find_fallback] at h
  cases hsc : strip_common_loop path pp (splitSep cfg.stow_path) with
  | error e1 =>
    rw [hsc] at h
    simp only [Except.error.injEq] at h
    rw [← h]
    have he1 := strip_common_loop_error_eq path (splitSep cfg.stow_path) pp e1 hsc
    subst he1
    intro hc
    exact Err.noConfusion hc
  | ok v =>
    rw [hsc] at h
    cases v with
    | none => simp at h
    | some lp =>
      obtain ⟨leftPath, leftStow⟩ := lp
      simp only [] at h
      by_cases hls : (!leftStow.isEmpty) = true
      · simp [hls] at h
      · simp only [Bool.not_eq_true] at hls
        simp only [hls, Bool.false_eq_true, if_false] at h
        cases leftPath with
        | nil =>
          simp only [Except.error.injEq] at h
          rw [← h]; intro hc; exact Err.noConfusion hc
        | cons package rest =>
          by_cases hr : rest.isEmpty = true
          · simp only [hr, if_true, Except.error.injEq] at h
            rw [← h]; intro hc; exact Err.noConfusion hc
          · simp [hr] at h

/-- The marker scan never produces AssertionError (its errors are NameError
and IndexError). -/
theorem find_marker_loop_error_ne_assert (fs : FS) (st : StowState) (path : String) :
    ∀ (pp : List String) (i : Nat) (dir : String),
      find_marker_loop fs st path pp i dir ≠
        some (Except.error Err.assertionError) := by
  intro pp
  induction pp with
  | nil => intro i dir h; simp [find_marker_loop] at h
  | cons part rest ih =>
    intro i dir h
    rw [find_marker_loop] at h
    by_cases hm : marked_stow_dir fs st (join2 dir part) = true
    · simp only [hm, if_true] at h
      by_cases hl : (i + 1 == path.length) = true
      · simp [hl] at h
      · simp only [Bool.not_eq_true] at hl
        simp only [hl, Bool.false_eq_true, if_false] at h
        cases hh : rest.head? with
        | some package => rw [hh] at h; simp at h
        | none => rw [hh] at h; simp at h
    · simp only [Bool.not_eq_true] at hm
      simp only [hm, Bool.false_eq_true, if_false] at h
      exact ih (i + 1) (join2 dir part) h

/-- The ownership resolver never raises AssertionError, whatever the inputs:
only the assert in foldable can produce one. -/
theorem find_stowed_path_errOf_ne_assert (cfg : Config) (fs : FS)
    (target source : String) (st : StowState) :
    errOf (find_stowed_path cfg fs target source st) ≠ some Err.assertionError := by
  intro hcontra
  simp only [find_stowed_path, run_bind, run_get] at hcontra
  cases hmk : find_marker_loop fs st (join_paths target [pardir, source])
      (splitSep (join_paths target [pardir, source])) 0 "" with
  | some r =>
    cases r with
    | ok v =>
      simp only [hmk, liftE, run_pure, errOf] at hcontra
      exact Option.noConfusion hcontra
    | error e =>
      simp only [hmk, liftE, run_throw, errOf, Option.some.injEq] at hcontra
      subst hcontra
      exact find_marker_loop_error_ne_assert fs st _ _ 0 "" hmk
  | none =>
    simp only [hmk] at hcontra
    cases hab : (isabs (join_paths target [pardir, source]) != isabs cfg.stow_path) with
    | true =>
      simp only [hab, if_true, run_bind, warnM, run_modify] at hcontra
      cases hfb : find_fallback cfg (join_paths target [pardir, source])
          (splitSep (join_paths target [pardir, source])) with
      | ok v =>
        simp only [hfb, liftE, run_pure, errOf] at hcontra
        exact Option.noConfusion hcontra
      | error e =>
        simp only [hfb, liftE, run_throw, errOf, Option.some.injEq] at hcontra
        subst hcontra
        exact find_fallback_error_ne_assert cfg _ _ _ hfb rfl
    | false =>
      simp only [hab, Bool.false_eq_true, if_false, run_bind, run_pure] at hcontra
      cases hfb : find_fallback cfg (join_paths target [pardir, source])
          (splitSep (join_paths target [pardir, source])) with
      | ok v =>
        simp only [hfb, liftE, run_pure, errOf] at hcontra
        exact Option.noConfusion hcontra
      | error e =>
        simp only [hfb, liftE, run_throw, errOf, Option.some.injEq] at hcontra
        subst hcontra
        exact find_fallback_error_ne_assert cfg _ _ _ hfb rfl

/-- An error of path_owned_by_package is an error of find_stowed_path. -/
theorem path_owned_err_of (cfg : Config) (fs : FS) (target source : String)
    (st st1 : StowState) (e : Err)
    (h : path_owned_by_package cfg fs target source st = .error e st1) :
    errOf (find_stowed_path cfg fs target source st) = some e := by
  simp only [path_owned_by_package, run_bind] at h
  cases hf : find_stowed_path cfg fs target source st with
  | ok v s1 =>
    rw [hf] at h
    simp [run_pure] at h
  | error e1 s1 =>
    rw [hf] at h
    simp only [EStateM.Result.error.injEq] at h
    simp only [hf, errOf]
    rw [h.1]

/-- C8 counterexample: a reachable planning run in which the assertion in
foldable fails.  Unstowing pkg removes the only package link d/f; foldable(d)
then scans the remaining live child d/x, whose source ../z yields the common
parent .. (after joining with os.pardir), which does not start with ../, so
the assert raises AssertionError and the whole plan_unstow aborts with it. -/
theorem foldable_assert_fails_reachable :
    errOf (plan_unstow c8cfg c8fs 10 ["pkg"] { cwd := "/h/u" }) =
      some Err.assertionError := by
  rfl

/-- C8 amended: in a call of foldable whose child scan completes with a
common parent p (all live children of the target are links whose sources
share the parent p, and p is nonempty), the assertion raises AssertionError
exactly when p does not begin with ../ — the assert cannot fail when the
parent has that prefix, and nothing after the assert (the ownership check)
can raise AssertionError either. -/
theorem foldable_assert_iff_parent_prefix (cfg : Config) (fs : FS)
    (st : StowState) (target p : String)
    (hnf : cfg.no_folding = false)
    (hscan : fold_scan fs target (fs.listdir st.cwd target) "" st = .ok (some p) st)
    (hp : (p == "") = false) :
    (errOf (foldable cfg fs target st) = some Err.assertionError
      ↔ sstartsWith p (pardir ++ sep) = false) := by
  simp only [foldable, hnf, Bool.false_eq_true, if_false, run_bind, run_get, run_pure, hscan,
    hp]
  cases hsw : sstartsWith p (pardir ++ sep) with
  | true =>
    simp only [if_true]
    constructor
    · intro hcontra
      exfalso
      cases hpo : path_owned_by_package cfg fs target (p.drop (pardir ++ sep).length) st with
      | ok pkg s1 =>
        simp only [run_bind, hpo] at hcontra
        by_cases hpk : (pkg != "") = true
        · simp [hpk, run_pure, errOf] at hcontra
        · simp only [Bool.not_eq_true] at hpk
          simp [hpk, run_pure, errOf] at hcontra
      | error e s1 =>
        simp only [run_bind, hpo, errOf, Option.some.injEq] at hcontra
        subst hcontra
        exact find_stowed_path_errOf_ne_assert cfg fs target
          (p.drop (pardir ++ sep).length) st (path_owned_err_of _ _ _ _ _ _ _ hpo)
    · intro hcontra
      exact Bool.noConfusion hcontra
  | false =>
    simp [run_throw, errOf]

/-- Witness for the amended foldable property at a concrete state whose
single live child is the link d/x with content ../z. -/
theorem foldable_assert_iff_parent_prefix_witness :
    (errOf (foldable c8cfg c8afs "d" { cwd := "/h/u/t" }) = some Err.assertionError
      ↔ sstartsWith ".." (pardir ++ sep) = false) :=
  foldable_assert_iff_parent_prefix c8cfg c8afs { cwd := "/h/u/t" } "d" ".."
    rfl rfl rfl

/-- Appending a fresh remove-link task in do_unlink when the path has no
pending link task, no pending dir task and is a real symlink. -/
theorem do_unlink_fresh (fs : FS) (st : StowState) (file : String)
    (h1 : alookup st.link_task_for file = none)
    (h2 : alookup st.dir_task_for file = none)
    (h3 : fs.islink st.cwd file = true) :
    do_unlink fs file st = .ok PUnit.unit
      { st with
        tasks := st.tasks ++ [{ action := "remove", type := "link", path := file,
                                source := fs.readlink st.cwd file }],
        link_task_for := aset st.link_task_for file st.tasks.length } := by
  simp [do_unlink, linkTask, dirTask, h1, h2, h3, run_bind, run_get, run_pure,
    run_modify, run_throw]

/-- C7: during unstow, a target that is a link owned by a stow directory and
whose resolved path exists is unlinked when that resolved path is exactly the
path this package would have created (a remove-link task is appended), and is
left completely untouched otherwise — same state, so no conflict is recorded
and no task is emitted for a link resolving into a different package. -/
theorem unstow_node_owned_link (cfg : Config) (fs : FS) (st : StowState)
    (fuel : Nat) (stow_path package target existing_source ep esp epkg : String)
    (hdot : cfg.dotfiles = false)
    (hlink : is_a_link fs st target = true)
    (hread : read_a_link fs target st = .ok existing_source st)
    (hne : (existing_source == "") = false)
    (habs : isabs existing_source = false)
    (hfind : find_stowed_path cfg fs target existing_source st = .ok (ep, esp, epkg) st)
    (hep : (ep == "") = false)
    (hex : fs.pexists st.cwd ep = true)
    (hnolt : alookup st.link_task_for target = none)
    (hnodt : alookup st.dir_task_for target = none)
    (hreal : fs.islink st.cwd target = true) :
    (ep = join_paths stow_path [package, target] →
      unstow_node cfg fs (fuel + 1) stow_path package target st =
        .ok PUnit.unit
          { st with
            tasks := st.tasks ++ [{ action := "remove", type := "link", path := target,
                                    source := fs.readlink st.cwd target }],
            link_task_for := aset st.link_task_for target st.tasks.length })
    ∧ (ep ≠ join_paths stow_path [package, target] →
      unstow_node cfg fs (fuel + 1) stow_path package target st = .ok PUnit.unit st) := by
  constructor
  · intro heq
    simp only [unstow_node, run_bind, run_get, hlink, if_true, hread, hne,
      Bool.false_eq_true, if_false, habs, hfind, hep, hex, hdot, run_pure, run_throw]
    simp only [heq, beq_self_eq_true, if_true]
    exact do_unlink_fresh fs st target hnolt hnodt hreal
  · intro hneq
    have hneqb : (ep == join_paths stow_path [package, target]) = false := by
      simpa using hneq
    simp only [unstow_node, run_bind, run_get, hlink, if_true, hread, hne,
      Bool.false_eq_true, if_false, habs, hfind, hep, hex, hdot, run_pure, run_throw,
      hneqb]

/-- Witness for the unstow-owned-link property at a concrete state. -/
theorem unstow_node_owned_link_witness :
    ("../stow/pkg/f" = join_paths "../stow" ["pkg", "f"] →
      unstow_node c7cfg c7fs (9 + 1) "../stow" "pkg" "f" { cwd := "/h/u/t" } =
        .ok PUnit.unit
          { cwd := "/h/u/t",
            tasks := [{ action := "remove", type := "link", path := "f",
                        source := "../stow/pkg/f" }],
            link_task_for := [("f", 0)] })
    ∧ ("../stow/pkg/f" ≠ join_paths "../stow" ["pkg", "f"] →
      unstow_node c7cfg c7fs (9 + 1) "../stow" "pkg" "f" { cwd := "/h/u/t" } =
        .ok PUnit.unit { cwd := "/h/u/t" }) :=
  unstow_node_owned_link c7cfg c7fs { cwd := "/h/u/t" } 9 "../stow" "pkg" "f"
    "../stow/pkg/f" "../stow/pkg/f" "../stow" "pkg"
    rfl rfl rfl rfl rfl rfl rfl rfl rfl rfl rfl

/-- C9: plan_stow validates each requested package through package_path —
when the stow directory has no subdirectory named after the package it raises
a RuntimeError naming the stow directory and the package, before any task is
emitted (the final state differs from the initial one only by the unrestored
working directory); plan_unstow performs no such check and descends straight
into unstow_contents, which fails differently (NameError from the undefined
name error) after the directory test inside it. -/
theorem plan_stow_checks_package_but_plan_unstow_descends
    (cfg : Config) (fs : FS) (st : StowState) (fuel : Nat) (package : String)
    (hdir1 : fs.isdir (chdirDest st.cwd cfg.target) (join_paths cfg.stow_path [package]) = false)
    (hdir2 : fs.isdir (chdirDest st.cwd cfg.target) (join_paths cfg.stow_path [package, "."]) = false)
    (hsp : ("." == cfg.stow_path) = false)
    (hm1 : fs.pexists (chdirDest st.cwd cfg.target) (join2 "." ".stow") = false)
    (hm2 : fs.pexists (chdirDest st.cwd cfg.target) (join2 "." ".nonstow") = false) :
    plan_stow cfg fs fuel [package] st =
      .error (Err.runtimeError ("The stow directory " ++ cfg.stow_path ++
        " does not contain package " ++ package))
        { st with cwd := chdirDest st.cwd cfg.target }
    ∧ plan_unstow cfg fs (fuel + 1) [package] st =
      .error (Err.nameError "error") { st with cwd := chdirDest st.cwd cfg.target } := by
  constructor
  · simp only [plan_stow, cd, plan_stow_loop, package_path, run_bind, run_get, run_pure,
      run_throw, hdir1, Bool.not_false, if_true]
  · simp only [plan_unstow, cd, plan_unstow_loop, unstow_contents, run_bind, run_get,
      run_pure, run_throw, should_skip_target_which_is_stow_dir, hsp, Bool.false_eq_true,
      if_false, marked_stow_dir, hm1, hm2, Bool.or_self, warnM, run_modify, hdir2,
      Bool.not_false, if_true]

/-- Witness for the missing-package property at a concrete state. -/
theorem plan_stow_checks_package_witness :
    plan_stow c9cfg c9fs 9 ["pkg"] { cwd := "/h/u" } =
      .error (Err.runtimeError ("The stow directory " ++ "../stow" ++
        " does not contain package " ++ "pkg")) { cwd := "/h/u/t" }
    ∧ plan_unstow c9cfg c9fs (9 + 1) ["pkg"] { cwd := "/h/u" } =
      .error (Err.nameError "error") { cwd := "/h/u/t" } :=
  plan_stow_checks_package_but_plan_unstow_descends c9cfg c9fs { cwd := "/h/u" } 9 "pkg"
    rfl rfl rfl rfl rfl

/-- Reduction of should_skip_target_which_is_stow_dir when the target is the
stow path or a marked stow directory: warn and answer true. -/
theorem should_skip_true_of (cfg : Config) (fs : FS) (target : String) (st : StowState)
    (h : (target == cfg.stow_path || marked_stow_dir fs st target) = true) :
    should_skip_target_which_is_stow_dir cfg fs target st =
      .ok true { st with warnings := st.warnings ++ [skipMsg cfg target] } := by
  cases h1 : (target == cfg.stow_path) with
  | true =>
    simp [should_skip_target_which_is_stow_dir, skipMsg, h1, warnM, run_bind, run_pure,
      run_get, run_modify, run_map]
  | false =>
    rw [h1] at h
    simp only [Bool.false_or] at h
    simp [should_skip_target_which_is_stow_dir, skipMsg, h1, h, warnM, run_bind, run_pure,
      run_get, run_modify, run_map]

/-- stow_contents on a protected target warns and emits nothing. -/
theorem stow_contents_skip (cfg : Config) (fs : FS) (st : StowState)
    (fuel : Nat) (stow_path package target source : String)
    (h : (target == cfg.stow_path || marked_stow_dir fs st target) = true) :
    stow_contents cfg fs (fuel + 1) stow_path package target source st =
      .ok () { st with warnings := st.warnings ++ [skipMsg cfg target] } := by
  simp [stow_contents, should_skip_true_of cfg fs target st h, run_bind, run_pure]

/-- unstow_contents on a protected target warns and emits nothing. -/
theorem unstow_contents_skip (cfg : Config) (fs : FS) (st : StowState)
    (fuel : Nat) (stow_path package target : String)
    (h : (target == cfg.stow_path || marked_stow_dir fs st target) = true) :
    unstow_contents cfg fs (fuel + 1) stow_path package target st =
      .ok () { st with warnings := st.warnings ++ [skipMsg cfg target] } := by
  simp [unstow_contents, should_skip_true_of cfg fs target st h, run_bind, run_pure]

/-- C10: the recognized marker names are exactly .stow and .nonstow —
marked_stow_dir answers true precisely when the target contains a file of
either name — and both stow_contents and unstow_contents skip a target that
is marked or equals the configured stow path, appending one warning and
leaving everything else (tasks in particular) unchanged. -/
theorem marked_stow_dir_names_and_protected_skip (cfg : Config) (fs : FS)
    (st : StowState) (fuel : Nat) (stow_path package target source : String)
    (h : (target == cfg.stow_path || marked_stow_dir fs st target) = true) :
    marked_stow_dir fs st target =
      (fs.pexists st.cwd (join2 target ".stow") ||
       fs.pexists st.cwd (join2 target ".nonstow"))
    ∧ stow_contents cfg fs (fuel + 1) stow_path package target source st =
        .ok () { st with warnings := st.warnings ++ [skipMsg cfg target] }
    ∧ unstow_contents cfg fs (fuel + 1) stow_path package target st =
        .ok () { st with warnings := st.warnings ++ [skipMsg cfg target] } :=
  ⟨rfl, stow_contents_skip cfg fs st fuel stow_path package target source h,
    unstow_contents_skip cfg fs st fuel stow_path package target h⟩

/-- Witness for the marker property at a concrete state. -/
theorem marked_stow_dir_names_witness :
    marked_stow_dir c10fs { cwd := "/h/u/t" } "x" =
      (c10fs.pexists "/h/u/t" (join2 "x" ".stow") ||
       c10fs.pexists "/h/u/t" (join2 "x" ".nonstow"))
    ∧ stow_contents c10cfg c10fs (4 + 1) "../stow" "pkg" "x" "../stow/pkg"
        { cwd := "/h/u/t" } =
        .ok () { cwd := "/h/u/t", warnings := ["skipping protected directory x"] }
    ∧ unstow_contents c10cfg c10fs (4 + 1) "../stow" "pkg" "x"
        { cwd := "/h/u/t" } =
        .ok () { cwd := "/h/u/t", warnings := ["skipping protected directory x"] } :=
  marked_stow_dir_names_and_protected_skip c10cfg c10fs { cwd := "/h/u/t" } 4
    "../stow" "pkg" "x" "../stow/pkg" rfl

/-- Lookup in the empty association list. -/
theorem alookup_nil {α : Type} (k : String) :
    alookup ([] : List (String × α)) k = none := rfl

/-- The loop of parent_link_scheduled_for_removal always answers false,
because its condition embeds the always-false Python comparison of a Task
object with a string. -/
theorem parent_link_removal_loop_false (st : StowState) :
    ∀ (parts : List String) (pfx : String),
      parent_link_removal_loop st pfx parts = false := by
  intro parts
  induction parts with
  | nil => intro pfx; rfl
  | cons part rest ih =>
    intro pfx
    rw [parent_link_removal_loop]
    simp only [optTaskEqRemoveStr, Bool.false_eq_true, if_false]
    exact ih (join2 pfx part)

/-- parent_link_scheduled_for_removal always answers false. -/
theorem parent_link_false (st : StowState) (p : String) :
    parent_link_scheduled_for_removal st p = false :=
  parent_link_removal_loop_false st (splitSep p) ""

/-- With no pending link task at the path, is_a_link is the real islink. -/
theorem is_a_link_clean (fs : FS) (st : StowState) (t : String)
    (h : alookup st.link_task_for t = none) :
    is_a_link fs st t = fs.islink st.cwd t := by
  simp only [is_a_link, linkTask, h, Option.map_none']
  cases hl : fs.islink st.cwd t with
  | true => simp [hl, parent_link_false]
  | false => simp [hl]

/-- With no pending link task, reading a real symlink returns its content. -/
theorem read_a_link_real (fs : FS) (st : StowState) (t : String)
    (h : alookup st.link_task_for t = none)
    (hl : fs.islink st.cwd t = true) :
    read_a_link fs t st = .ok (fs.readlink st.cwd t) st := by
  simp [read_a_link, linkTask, h, hl, run_bind, run_get, run_pure]

/-- With no pending tasks at the path, is_a_node is the real existence
test. -/
theorem is_a_node_clean (fs : FS) (st : StowState) (p : String)
    (h1 : alookup st.link_task_for p = none)
    (h2 : alookup st.dir_task_for p = none) :
    is_a_node fs p st = .ok (fs.pexists st.cwd p) st := by
  simp only [is_a_node, linkTask, dirTask, h1, h2, Option.map_none', parent_link_false,
    Bool.false_eq_true, if_false, run_bind, run_get, run_pure, run_throw]
  rfl

/-- With no pending link task at the path, is_a_dir is the real isdir. -/
theorem is_a_dir_clean (fs : FS) (st : StowState) (p : String)
    (h : alookup st.link_task_for p = none) :
    is_a_dir fs st p = fs.isdir st.cwd p := by
  simp only [is_a_dir, linkTask, h, Option.map_none', parent_link_false,
    Bool.false_eq_true, if_false]
  cases hd : fs.isdir st.cwd p <;> simp [hd]

/-- normpath never returns the empty string. -/
theorem normpath_ne_empty (p : String) : normpath p ≠ "" := by
  rw [normpath]
  by_cases h : (p == "") = true
  · simp [h]
  · simp only [h, Bool.false_eq_true, if_false]
    by_cases h2 : (String.intercalate "" (List.replicate (initialSlashes p) sep) ++
        String.intercalate sep (((splitSep p).foldl (normStep (initialSlashes p)) []).reverse) == "") = true
    · simp [h2]
    · simp only [h2, Bool.false_eq_true, if_false]
      intro hc
      rw [hc] at h2
      simp at h2

/-- join_paths never produces a zero-length path, so the empty-target guard
of ignore never fires on it. -/
theorem join_paths_beq_zero (a : String) (rest : List String) :
    ((join_paths a rest).length == 0) = false := by
  have h : join_paths a rest ≠ "" := normpath_ne_empty (joinMany a rest)
  simp only [beq_eq_false_iff_ne, ne_eq]
  intro hc
  apply h
  cases hjp : join_paths a rest with
  | mk data =>
    rw [hjp] at hc
    cases data with
    | nil => rfl
    | cons c cs => simp [String.length] at hc

/-- Reduction of should_skip_target_which_is_stow_dir when the target is
neither the stow path nor marked: answer false, no warning. -/
theorem should_skip_false_of (cfg : Config) (fs : FS) (target : String)
    (st : StowState)
    (h1 : (target == cfg.stow_path) = false)
    (h2 : marked_stow_dir fs st target = false) :
    should_skip_target_which_is_stow_dir cfg fs target st = .ok false st := by
  simp [should_skip_target_which_is_stow_dir, h1, h2, run_bind, run_get, run_pure,
    run_map, warnM, run_modify]

/-- Reduction of ignore on a nonempty target: test the patterns. -/
theorem ignore_nonempty (cfg : Config) (sp pkg t : String)
    (hlen : (t.length == 0) = false) :
    ignore cfg sp pkg t = .ok (cfg.ignores.any (fun pat => pat t)) := by
  simp [ignore, hlen]

/-- One-step unfolding of the stow_contents child loop on a nonempty list. -/
theorem stow_contents_loop_cons (cfg : Config) (fs : FS) (fuel : Nat)
    (sp pkg t s node : String) (rest : List String) (st : StowState) :
    stow_contents_loop cfg fs (fuel + 1) sp pkg t s (node :: rest) st =
      ((do
        let node_target := join_paths t [node]
        match ignore cfg sp pkg node_target with
        | .error e => throw e
        | .ok true => stow_contents_loop cfg fs fuel sp pkg t s rest
        | .ok false => do
          if cfg.dotfiles then throw (Err.nameError "adjust_dotfile")
          stow_node cfg fs fuel sp pkg node_target (join_paths s [node])
          stow_contents_loop cfg fs fuel sp pkg t s rest) : M Unit) st := rfl

/-- On a clean task index, planning the stow of a package whose on-disk state
is already the applied one emits nothing and changes nothing: every node is
resolved by the already-points-at-exact-source skip or by recursion into a
real directory.  Proved simultaneously for the three mutually recursive
planner functions, by induction on the fuel. -/
theorem second_run_noop (cfg : Config) (fs : FS) (st0 : StowState)
    (hl : st0.link_task_for = []) (hd : st0.dir_task_for = [])
    (hdot : cfg.dotfiles = false) :
    ∀ fuel : Nat,
      (∀ package target source,
        InstalledNode cfg fs st0.cwd fuel package target source →
        stow_node cfg fs fuel cfg.stow_path package target source st0 =
          .ok PUnit.unit st0)
      ∧ (∀ package target source,
        InstalledContents cfg fs st0.cwd fuel package target source →
        stow_contents cfg fs fuel cfg.stow_path package target source st0 =
          .ok PUnit.unit st0)
      ∧ (∀ package target source nodes,
        InstalledLoop cfg fs st0.cwd fuel package target source nodes →
        stow_contents_loop cfg fs fuel cfg.stow_path package target source nodes st0 =
          .ok PUnit.unit st0) := by
  have hlookl : ∀ p, alookup st0.link_task_for p = none := by
    intro p; rw [hl]; rfl
  have hlookd : ∀ p, alookup st0.dir_task_for p = none := by
    intro p; rw [hd]; rfl
  intro fuel
  induction fuel with
  | zero =>
    refine ⟨fun _ _ _ hin => absurd hin (by simp [InstalledNode]),
            fun _ _ _ hin => absurd hin (by simp [InstalledContents]),
            fun package target source nodes hin => ?_⟩
    cases nodes with
    | nil => rfl
    | cons n rest => exact absurd hin (by simp [InstalledLoop])
  | succ fuel ih =>
    obtain ⟨ihn, ihc, ihl⟩ := ih
    refine ⟨?_, ?_, ?_⟩
    · intro package target source hin
      rw [InstalledNode] at hin
      obtain ⟨hsrc, hcase⟩ := hin
      rw [stow_node]
      cases hcase with
      | inl hlink =>
        obtain ⟨hlk, hrd, hsne, ep, esp, epkg, hepne, hepex, hfind⟩ := hlink
        have hsne2 : ¬(source = "") := by simpa using hsne
        have hepne2 : ¬(ep = "") := by simpa using hepne
        by_cases hsl : fs.islink st0.cwd source = true
        · have habs : isabs (fs.readlink st0.cwd source) = false := by
            cases hq : isabs (fs.readlink st0.cwd source) with
            | true => exact absurd ⟨hsl, hq⟩ hsrc
            | false => rfl
          simp [run_bind, run_get, hsl, read_a_link_real fs st0 source (hlookl source) hsl,
            habs, run_pure, run_throw, is_a_link_clean fs st0 target (hlookl target), hlk,
            read_a_link_real fs st0 target (hlookl target) hlk, hrd, hsne2,
            hfind st0 rfl, hepne2, is_a_node_clean fs st0 ep (hlookl ep) (hlookd ep), hepex]
        · simp only [Bool.not_eq_true] at hsl
          simp [run_bind, run_get, hsl, run_pure,
            is_a_link_clean fs st0 target (hlookl target), hlk,
            read_a_link_real fs st0 target (hlookl target) hlk, hrd, hsne2,
            hfind st0 rfl, hepne2, is_a_node_clean fs st0 ep (hlookl ep) (hlookd ep), hepex]
      | inr hdir =>
        obtain ⟨hlf, hpe, hdirt, hic⟩ := hdir
        by_cases hsl : fs.islink st0.cwd source = true
        · have habs : isabs (fs.readlink st0.cwd source) = false := by
            cases hq : isabs (fs.readlink st0.cwd source) with
            | true => exact absurd ⟨hsl, hq⟩ hsrc
            | false => rfl
          simp [run_bind, run_get, hsl, read_a_link_real fs st0 source (hlookl source) hsl,
            habs, run_pure, run_throw, is_a_link_clean fs st0 target (hlookl target), hlf,
            is_a_node_clean fs st0 target (hlookl target) (hlookd target), hpe,
            is_a_dir_clean fs st0 target (hlookl target), hdirt,
            ihc package target (join2 pardir source) hic]
        · simp only [Bool.not_eq_true] at hsl
          simp [run_bind, run_get, hsl, run_pure,
            is_a_link_clean fs st0 target (hlookl target), hlf,
            is_a_node_clean fs st0 target (hlookl target) (hlookd target), hpe,
            is_a_dir_clean fs st0 target (hlookl target), hdirt,
            ihc package target (join2 pardir source) hic]
    · intro package target source hin
      rw [InstalledContents] at hin
      obtain ⟨hnsp, hm1, hm2, hdirp, hpe, hloop⟩ := hin
      have hmk : marked_stow_dir fs st0 target = false := by
        simp [marked_stow_dir, hm1, hm2]
      rw [stow_contents]
      simp only [run_bind, run_get, run_pure, run_throw,
        should_skip_false_of cfg fs target st0 hnsp hmk, Bool.false_eq_true, if_false,
        hdirp, Bool.not_true, Bool.not_false, if_true,
        is_a_node_clean fs st0 target (hlookl target) (hlookd target), hpe,
        ihl package target source
          (fs.listdir st0.cwd (join_paths cfg.stow_path [package, target])) hloop]
    · intro package target source nodes hin
      cases nodes with
      | nil => rfl
      | cons node rest =>
        rw [InstalledLoop] at hin
        obtain ⟨hfirst, hrest⟩ := hin
        rw [stow_contents_loop_cons]
        have hlen := join_paths_beq_zero target [node]
        have hign := ignore_nonempty cfg cfg.stow_path package (join_paths target [node]) hlen
        cases hig : cfg.ignores.any (fun pat => pat (join_paths target [node])) with
        | true =>
          rw [hig] at hign
          simp only [hign, run_bind, run_pure,
            ihl package target source rest hrest]
        | false =>
          rw [hig] at hfirst hign
          simp only [Bool.false_eq_true, if_false] at hfirst
          simp only [hign, hdot, Bool.false_eq_true, if_false, run_bind, run_pure, run_throw,
            ihn package (join_paths target [node]) (join_paths source [node]) hfirst,
            ihl package target source rest hrest]

/-- C2: re-running plan_stow on a package whose first stow has been applied
(its on-disk state is the applied InstalledContents state) succeeds, emits an
empty task list — in particular empty after filtering out skip entries — and
execution of that plan performs no filesystem operation, so the on-disk tree
is identical to installing once. -/
theorem plan_stow_second_run_empty (cfg : Config) (fs : FS) (st0 : StowState)
    (fuel : Nat) (package : String)
    (hl : st0.link_task_for = []) (hd : st0.dir_task_for = []) (ht : st0.tasks = [])
    (hdot : cfg.dotfiles = false)
    (hpkg : fs.isdir (chdirDest st0.cwd cfg.target)
      (join_paths cfg.stow_path [package]) = true)
    (hinst : InstalledContents cfg fs (chdirDest st0.cwd cfg.target) fuel package "."
      (join_paths cfg.stow_path [package])) :
    plan_stow cfg fs fuel [package] st0 =
      .ok PUnit.unit { st0 with action_count := st0.action_count + 1 }
    ∧ ({ st0 with action_count := st0.action_count + 1 } : StowState).tasks.filter
        (fun t => t.action != "skip") = []
    ∧ process_tasks cfg { st0 with action_count := st0.action_count + 1 } =
      .ok [] { st0 with action_count := st0.action_count + 1 } := by
  have hrun := (second_run_noop cfg fs { st0 with cwd := chdirDest st0.cwd cfg.target }
      (by simp [hl]) (by simp [hd]) hdot fuel).2.1 package "."
      (join_paths cfg.stow_path [package]) (by simpa using hinst)
  refine ⟨?_, ?_, ?_⟩
  · simp only [plan_stow, cd, plan_stow_loop, package_path, run_bind, run_get, run_pure,
      run_throw, run_modify]
    simp only [hpkg, Bool.not_true, Bool.false_eq_true, if_false, hrun, run_bind,
      run_modify, run_pure]
  · simp [ht]
  · simp [process_tasks, ht, run_bind, run_get, run_modify, run_pure]

/-- The first stow of the idempotence witness plans exactly the two link
creations, and applying them to the pre-stow filesystem yields the applied
filesystem the witness re-runs on. -/
theorem c2_first_run_applies_to_installed :
    (stateOf (plan_stow c2cfg (FlatFS.toFS c2flat0) 10 ["pkg"] { cwd := "/h/u" })).tasks =
      [{ action := "create", type := "link", path := "d/g", source := "../../stow/pkg/d/g" },
       { action := "create", type := "link", path := "f", source := "../stow/pkg/f" }]
    ∧ errOf (plan_stow c2cfg (FlatFS.toFS c2flat0) 10 ["pkg"] { cwd := "/h/u" }) = none
    ∧ primsOf ((stateOf (plan_stow c2cfg (FlatFS.toFS c2flat0) 10 ["pkg"]
        { cwd := "/h/u" })).tasks) =
      .ok [Prim.symlink "../../stow/pkg/d/g" "d/g", Prim.symlink "../stow/pkg/f" "f"]
    ∧ c2flat0.applyPrims
        [Prim.symlink "../../stow/pkg/d/g" "d/g", Prim.symlink "../stow/pkg/f" "f"] =
      c2flat :=
  ⟨rfl, rfl, rfl, rfl⟩

/-- The applied filesystem of the idempotence witness is in the applied
InstalledContents state for package pkg. -/
theorem c2fs_installed :
    InstalledContents c2cfg c2fs (chdirDest "/h/u" "t") 10 "pkg" "."
      (join_paths "../stow" ["pkg"]) := by
  refine ⟨rfl, rfl, rfl, rfl, rfl, ?_⟩
  show InstalledLoop c2cfg c2fs "/h/u/t" 9 "pkg" "." (join_paths "../stow" ["pkg"]) ["d", "f"]
  refine ⟨?_, ?_, trivial⟩
  · show InstalledNode c2cfg c2fs "/h/u/t" 8 "pkg" (join_paths "." ["d"])
      (join_paths (join_paths "../stow" ["pkg"]) ["d"])
    refine ⟨by decide, Or.inr ⟨rfl, rfl, rfl, ?_⟩⟩
    show InstalledContents c2cfg c2fs "/h/u/t" 7 "pkg" "d" (join2 pardir "../stow/pkg/d")
    refine ⟨rfl, rfl, rfl, rfl, rfl, ?_⟩
    show InstalledLoop c2cfg c2fs "/h/u/t" 6 "pkg" "d" "../../stow/pkg/d" ["g"]
    refine ⟨?_, trivial⟩
    show InstalledNode c2cfg c2fs "/h/u/t" 5 "pkg" (join_paths "d" ["g"])
      (join_paths "../../stow/pkg/d" ["g"])
    exact ⟨by decide, Or.inl ⟨rfl, rfl, rfl, "../stow/pkg/d/g", "../stow", "pkg", rfl, rfl,
      fun st _ => rfl⟩⟩
  · show InstalledNode c2cfg c2fs "/h/u/t" 8 "pkg" (join_paths "." ["f"])
      (join_paths (join_paths "../stow" ["pkg"]) ["f"])
    exact ⟨by decide, Or.inl ⟨rfl, rfl, rfl, "../stow/pkg/f", "../stow", "pkg", rfl, rfl,
      fun st _ => rfl⟩⟩

/-- Witness for the idempotence property at the concrete applied
filesystem. -/
theorem plan_stow_second_run_empty_witness :
    plan_stow c2cfg c2fs 10 ["pkg"] { cwd := "/h/u" } =
      .ok PUnit.unit { cwd := "/h/u", action_count := 1 }
    ∧ ({ cwd := "/h/u", action_count := 1 } : StowState).tasks.filter
        (fun t => t.action != "skip") = []
    ∧ process_tasks c2cfg { cwd := "/h/u", action_count := 1 } =
      .ok [] { cwd := "/h/u", action_count := 1 } :=
  plan_stow_second_run_empty c2cfg c2fs { cwd := "/h/u" } 10 "pkg"
    rfl rfl rfl rfl rfl c2fs_installed

end StowPy

